import Mathlib

/-!
Shallow embedding of the route-optimization core of the gptravel repository:
`GeoCoder` (src/gptravel/core/services/geocoder.py) and `TSPSolver`
(src/gptravel/core/services/engine/tsp_solver.py).

Modelling choices:
* Floats are modelled as `Rat`.
* A geopy `Location` is modelled by its latitude/longitude pair.
* The external geocoding provider (`Photon().geocode`) is an abstract
  parameter `provider : String → Option Location`.
* The geodesic great-circle distance (`geopy.distance.geodesic(...).km`) is an
  abstract parameter `d : Rat → Rat → Rat → Rat → Rat` on resolved
  coordinates; applying it to an unresolved (`None`) coordinate raises a
  runtime `TypeError` in Python, modelled as `Except.error`.
* The process-wide cache `LOCATION_CACHE` and the provider-call history are
  threaded explicitly as a `GeoState`; `TSPSolver._distance_matrix` is
  threaded as a `List (List Rat)` state component.
* The external `python_tsp` solvers are abstract parameters
  `List (List Rat) → List Nat × Rat`; `bruteForceSolver` below is a concrete
  model satisfying their documented contract (a permutation of the indices
  together with the cyclic tour cost of that permutation on the matrix it was
  given).
-/

/-- Model of Python's `str.lower()` (extensionally equal to Lean's
`String.toLower`, but written over the character list so that it reduces in
the kernel). -/
def pyLower (s : String) : String :=
  ⟨s.data.map Char.toLower⟩

/-- Model of a geopy `Location` result: its coordinates. -/
structure Location where
  latitude : Rat
  longitude : Rat
deriving DecidableEq

/-- The geocoder-visible mutable state: the process-wide `LOCATION_CACHE`
(keyed by the lower-cased name; a stored `none` records a provider miss) and
the log of names actually sent to the external provider. -/
structure GeoState where
  cache : List (String × Option Location)
  log : List String
deriving DecidableEq

/-- Lookup in the cache association list (models Python dict lookup; keys are
never inserted twice, so first-match semantics coincide with dict semantics). -/
def cacheLookup (k : String) : List (String × Option Location) → Option (Option Location)
  | [] => none
  | (k', v) :: rest => if k' = k then some v else cacheLookup k rest

namespace GeoCoder

/-- Embedding of `GeoCoder._query`: lower-case the name, return the cached
result on a hit, otherwise call the provider (with the original-case name),
store the result (even a miss) under the lower-cased key, and return it. -/
def query (provider : String → Option Location) (location_name : String)
    (s : GeoState) : Option Location × GeoState :=
  let loc_name := pyLower location_name
  match cacheLookup loc_name s.cache with
  | some v => (v, s)
  | none =>
    let qry_obj := provider location_name
    (qry_obj, ⟨(loc_name, qry_obj) :: s.cache, s.log ++ [location_name]⟩)

/-- Embedding of `GeoCoder.location_coordinates`: the `{"lat": …, "lon": …}`
dictionary is modelled as a pair of optional coordinates. -/
def location_coordinates (provider : String → Option Location)
    (location_name : String) (s : GeoState) :
    (Option Rat × Option Rat) × GeoState :=
  match query provider location_name s with
  | (some loc, s') => ((some loc.latitude, some loc.longitude), s')
  | (none, s') => ((none, none), s')

/-- Model of `geopy.distance.geodesic(p1, p2).km` (`GRC` in the source):
defined through the abstract geodesic `d` on resolved coordinates; a `None`
component makes geopy raise a `TypeError`, modelled as an error result. -/
def GRC (d : Rat → Rat → Rat → Rat → Rat) :
    Option Rat × Option Rat → Option Rat × Option Rat → Except String Rat
  | (some la1, some lo1), (some la2, some lo2) => .ok (d la1 lo1 la2 lo2)
  | _, _ => .error "TypeError"

/-- Embedding of `GeoCoder.location_distance`: 0.0 immediately when the two
names agree up to case, otherwise resolve both names (left one first) and
apply the geodesic. -/
def location_distance (d : Rat → Rat → Rat → Rat → Rat)
    (provider : String → Option Location)
    (location_name_1 location_name_2 : String) (s : GeoState) :
    Except String Rat × GeoState :=
  if pyLower location_name_1 = pyLower location_name_2 then (.ok 0, s)
  else
    let (location1_coords, s1) := location_coordinates provider location_name_1 s
    let (location2_coords, s2) := location_coordinates provider location_name_2 s1
    (GRC d location1_coords location2_coords, s2)

end GeoCoder

/-- Matrix entry access, `m[i][j]` (indices produced by the code are always in
range; the default is irrelevant there). -/
def entry (m : List (List Rat)) (i j : Nat) : Rat :=
  (m.getD i []).getD j 0

/-- Cost of a (not necessarily cyclic) index path on a matrix: the sum of the
consecutive edges. -/
def pathCost (m : List (List Rat)) : List Nat → Rat
  | [] => 0
  | [_] => 0
  | i :: j :: rest => entry m i j + pathCost m (j :: rest)

/-- Cyclic tour cost of a permutation on a matrix, exactly as
`python_tsp.utils.compute_permutation_distance` computes it: consecutive
edges plus the closing edge back to the first index. -/
def tourCost (m : List (List Rat)) (p : List Nat) : Rat :=
  match p with
  | [] => 0
  | p0 :: _ => pathCost m (p ++ [p0])

/-- Concrete model of an exact TSP solver satisfying the `python_tsp`
contract: it returns a permutation of `0..n-1` together with the cyclic tour
cost of that permutation on the matrix it was given, and the returned
permutation minimizes that cost. -/
def bruteForceSolver (m : List (List Rat)) : List Nat × Rat :=
  match (List.range m.length).permutations' with
  | [] => (List.range m.length, tourCost m (List.range m.length))
  | c :: cs =>
    cs.foldl
      (fun acc p =>
        let cst := tourCost m p
        if cst < acc.2 then (p, cst) else acc)
      (c, tourCost m c)

namespace TSPSolver

/-- Embedding of the inner list comprehension of `TSPSolver.solve` for a fixed
row index `i`: entries are produced left to right, the geocoder state is
threaded through, and a raised exception aborts the remaining entries. -/
def buildEntries (d : Rat → Rat → Rat → Rat → Rat)
    (provider : String → Option Location) (cities : List String) (i : Nat) :
    List Nat → GeoState → Except String (List Rat) × GeoState
  | [], s => (.ok [], s)
  | j :: js, s =>
    let (r, s1) :=
      if i = j then ((.ok 0 : Except String Rat), s)
      else GeoCoder.location_distance d provider (cities.getD i "") (cities.getD j "") s
    match r with
    | .error e => (.error e, s1)
    | .ok v =>
      match buildEntries d provider cities i js s1 with
      | (.error e, s2) => (.error e, s2)
      | (.ok vs, s2) => (.ok (v :: vs), s2)

/-- Embedding of the outer list comprehension of `TSPSolver.solve`: rows are
produced top to bottom. -/
def buildRows (d : Rat → Rat → Rat → Rat → Rat)
    (provider : String → Option Location) (cities : List String) :
    List Nat → GeoState → Except String (List (List Rat)) × GeoState
  | [], s => (.ok [], s)
  | i :: is, s =>
    match buildEntries d provider cities i (List.range cities.length) s with
    | (.error e, s1) => (.error e, s1)
    | (.ok row, s1) =>
      match buildRows d provider cities is s1 with
      | (.error e, s2) => (.error e, s2)
      | (.ok rows, s2) => (.ok (row :: rows), s2)

/-- The `np.array([[0.0 if i == j else …location_distance(cities[i], cities[j])
for j in range(len(cities))] for i in range(len(cities))])` expression of
`TSPSolver.solve`. -/
def buildMatrix (d : Rat → Rat → Rat → Rat → Rat)
    (provider : String → Option Location) (cities : List String)
    (s : GeoState) : Except String (List (List Rat)) × GeoState :=
  buildRows d provider cities (List.range cities.length) s

/-- The `dist_mat[:, 0] = 0.0` mutation of `TSPSolver.solve`, applied to the
working copy (`np.copy`) of the matrix: zero the first column. -/
def zeroStartColumn (m : List (List Rat)) : List (List Rat) :=
  m.map (fun row => row.set 0 0)

/-- Body of `TSPSolver.solve` after the solver has been selected: build and
store the distance matrix, optionally open the problem on a working copy,
run the solver on that copy, and map the returned indices back to names.
On a raised exception (`Except.error`) the stored matrix keeps its previous
value while the geocoder cache keeps the lookups performed so far. -/
def solveCore (solver : List (List Rat) → List Nat × Rat)
    (d : Rat → Rat → Rat → Rat → Rat) (provider : String → Option Location)
    (cities : List String) (open_problem : Bool)
    (st : List (List Rat)) (gs : GeoState) :
    Except String (List String × Rat) × List (List Rat) × GeoState :=
  match buildMatrix d provider cities gs with
  | (.error e, gs1) => (.error e, st, gs1)
  | (.ok m, gs1) =>
    let dist_mat := if open_problem then zeroStartColumn m else m
    let sol := solver dist_mat
    (.ok (sol.1.map (fun index => cities.getD index ""), sol.2), m, gs1)

/-- Embedding of `TSPSolver.solve`. The two external `python_tsp` solvers are
abstract parameters: `solver_dp` stands for `solve_tsp_dynamic_programming`
and `solver_sa` for `solve_tsp_simulated_annealing`. `st` is the current
`self._distance_matrix` and `gs` the geocoder state; both are returned
alongside the result. -/
def solve (solver_dp solver_sa : List (List Rat) → List Nat × Rat)
    (d : Rat → Rat → Rat → Rat → Rat) (provider : String → Option Location)
    (cities : List String) (open_problem : Bool)
    (st : List (List Rat)) (gs : GeoState) :
    Except String (List String × Rat) × List (List Rat) × GeoState :=
  if 1 < cities.length then
    solveCore (if cities.length < 10 then solver_dp else solver_sa)
      d provider cities open_problem st gs
  else
    (.ok (cities, 0), st, gs)

end TSPSolver

/-! ## Pure reformulations used to state the matrix invariants -/

/-- The coordinates `location_coordinates` yields for a name, as a pure
function of the provider (valid once the cache is consistent with the
provider). -/
def pureCoords (provider : String → Option Location) (name : String) :
    Option Rat × Option Rat :=
  match provider name with
  | some loc => (some loc.latitude, some loc.longitude)
  | none => (none, none)

/-- The result of `location_distance` as a pure function of the provider. -/
def pureDistance (d : Rat → Rat → Rat → Rat → Rat)
    (provider : String → Option Location) (a b : String) : Except String Rat :=
  if pyLower a = pyLower b then .ok 0
  else GeoCoder.GRC d (pureCoords provider a) (pureCoords provider b)

/-- The numeric value of `pureDistance` when it succeeds. -/
def pureDistVal (d : Rat → Rat → Rat → Rat → Rat)
    (provider : String → Option Location) (a b : String) : Rat :=
  if pyLower a = pyLower b then 0
  else
    match provider a, provider b with
    | some l1, some l2 => d l1.latitude l1.longitude l2.latitude l2.longitude
    | _, _ => 0

/-- The value of the distance-matrix entry `(i, j)` as a pure function. -/
def pureEntryVal (d : Rat → Rat → Rat → Rat → Rat)
    (provider : String → Option Location) (cities : List String)
    (i j : Nat) : Rat :=
  if i = j then 0
  else pureDistVal d provider (cities.getD i "") (cities.getD j "")

/-- The distance matrix as a pure function of the provider. -/
def pureMatrix (d : Rat → Rat → Rat → Rat → Rat)
    (provider : String → Option Location) (cities : List String) :
    List (List Rat) :=
  (List.range cities.length).map fun i =>
    (List.range cities.length).map fun j => pureEntryVal d provider cities i j

/-- A cache state is consistent with the provider when every stored entry is
the provider's answer for (any case variant of) the stored key. The empty
cache is consistent, and `GeoCoder.query` preserves consistency. -/
def CacheConsistent (provider : String → Option Location) (s : GeoState) : Prop :=
  ∀ k v, cacheLookup k s.cache = some v → ∀ n : String, pyLower n = k → provider n = v

/-! ## Claim theorems: degenerate input, solver selection, fast path -/

/-- C4: for an input list of length 0 or 1, `TSPSolver.solve` returns the
input unchanged paired with distance 0, for any injected solvers; the stored
matrix and the geocoder state (cache and provider-call log) are returned
untouched, so no matrix is built, no solver runs and the geocoder is never
called. -/
theorem solve_degenerate
    (solver_dp solver_sa : List (List Rat) → List Nat × Rat)
    (d : Rat → Rat → Rat → Rat → Rat) (provider : String → Option Location)
    (cities : List String) (open_problem : Bool)
    (st : List (List Rat)) (gs : GeoState)
    (h : cities.length ≤ 1) :
    TSPSolver.solve solver_dp solver_sa d provider cities open_problem st gs
      = (.ok (cities, 0), st, gs) := by
  have h1 : ¬ 1 < cities.length := by omega
  simp [TSPSolver.solve, h1]

/-- Witness for C4 at the concrete one-element input `["Rome"]`. -/
theorem solve_degenerate_witness :
    TSPSolver.solve bruteForceSolver bruteForceSolver (fun _ _ _ _ => 0)
        (fun _ => none) ["Rome"] false [[1, 2], [3, 4]] ⟨[], []⟩
      = (.ok (["Rome"], 0), [[1, 2], [3, 4]], ⟨[], []⟩) :=
  solve_degenerate bruteForceSolver bruteForceSolver (fun _ _ _ _ => 0)
    (fun _ => none) ["Rome"] false [[1, 2], [3, 4]] ⟨[], []⟩ (by decide)

/-- C10: a degenerate call (0 or 1 places) leaves the stored distance-matrix
component exactly as it was before the call — whatever a previous
non-degenerate solve built, or the construction-time array if none ran — so
it does not describe the degenerate call's input. -/
theorem solve_degenerate_keeps_matrix
    (solver_dp solver_sa : List (List Rat) → List Nat × Rat)
    (d : Rat → Rat → Rat → Rat → Rat) (provider : String → Option Location)
    (cities : List String) (open_problem : Bool)
    (st : List (List Rat)) (gs : GeoState)
    (h : cities.length ≤ 1) :
    (TSPSolver.solve solver_dp solver_sa d provider cities open_problem st gs).2.1 = st := by
  have h1 : ¬ 1 < cities.length := by omega
  simp [TSPSolver.solve, h1]

/-- Witness for C10: an empty input list leaves a previously stored matrix in
place. -/
theorem solve_degenerate_keeps_matrix_witness :
    (TSPSolver.solve bruteForceSolver bruteForceSolver (fun _ _ _ _ => 0)
        (fun _ => none) [] true [[7, 8], [9, 10]] ⟨[], []⟩).2.1 = [[7, 8], [9, 10]] :=
  solve_degenerate_keeps_matrix bruteForceSolver bruteForceSolver (fun _ _ _ _ => 0)
    (fun _ => none) [] true [[7, 8], [9, 10]] ⟨[], []⟩ (by decide)

/-- C3: `TSPSolver.solve` dispatches on problem size: with more than one and
fewer than ten cities it runs the injected exact dynamic-programming solver,
and with ten or more cities it runs the injected simulated-annealing solver
(so a 9-city list takes the exact branch and a 10-city list the heuristic
branch, as the witness instantiates). -/
theorem solve_solver_selection
    (solver_dp solver_sa : List (List Rat) → List Nat × Rat)
    (d : Rat → Rat → Rat → Rat → Rat) (provider : String → Option Location)
    (cities : List String) (open_problem : Bool)
    (st : List (List Rat)) (gs : GeoState) :
    (1 < cities.length → cities.length < 10 →
      TSPSolver.solve solver_dp solver_sa d provider cities open_problem st gs
        = TSPSolver.solveCore solver_dp d provider cities open_problem st gs)
    ∧ (10 ≤ cities.length →
      TSPSolver.solve solver_dp solver_sa d provider cities open_problem st gs
        = TSPSolver.solveCore solver_sa d provider cities open_problem st gs) := by
  constructor
  · intro h1 h2
    simp [TSPSolver.solve, h1, h2]
  · intro h10
    have h1 : 1 < cities.length := by omega
    have h2 : ¬ cities.length < 10 := by omega
    simp [TSPSolver.solve, h1, h2]

/-- A stub heuristic solver, used only to make the two injected solvers
observably different in witnesses. -/
def saStub : List (List Rat) → List Nat × Rat := fun _ => ([], 0)

/-- A provider resolving every name to a fixed coordinate pair. -/
def constProvider : String → Option Location := fun _ => some ⟨0, 0⟩

/-- Witness for C3: a 9-city list takes the dynamic-programming branch and a
10-city list the simulated-annealing branch. -/
theorem solve_solver_selection_witness :
    (TSPSolver.solve bruteForceSolver saStub (fun _ _ _ _ => 0) constProvider
        ["a1", "a2", "a3", "a4", "a5", "a6", "a7", "a8", "a9"] false [] ⟨[], []⟩
      = TSPSolver.solveCore bruteForceSolver (fun _ _ _ _ => 0) constProvider
        ["a1", "a2", "a3", "a4", "a5", "a6", "a7", "a8", "a9"] false [] ⟨[], []⟩)
    ∧ (TSPSolver.solve bruteForceSolver saStub (fun _ _ _ _ => 0) constProvider
        ["a1", "a2", "a3", "a4", "a5", "a6", "a7", "a8", "a9", "a10"] false [] ⟨[], []⟩
      = TSPSolver.solveCore saStub (fun _ _ _ _ => 0) constProvider
        ["a1", "a2", "a3", "a4", "a5", "a6", "a7", "a8", "a9", "a10"] false [] ⟨[], []⟩) :=
  ⟨(solve_solver_selection bruteForceSolver saStub (fun _ _ _ _ => 0) constProvider
      ["a1", "a2", "a3", "a4", "a5", "a6", "a7", "a8", "a9"] false [] ⟨[], []⟩).1
      (by decide) (by decide),
   (solve_solver_selection bruteForceSolver saStub (fun _ _ _ _ => 0) constProvider
      ["a1", "a2", "a3", "a4", "a5", "a6", "a7", "a8", "a9", "a10"] false [] ⟨[], []⟩).2
      (by decide)⟩

/-- C7: when the two names are equal under case-folding (in particular for a
name against itself), `location_distance` returns exactly 0 with the geocoder
state untouched: the cache is not written and no provider call happens. -/
theorem location_distance_same_name
    (d : Rat → Rat → Rat → Rat → Rat) (provider : String → Option Location)
    (a b : String) (s : GeoState) (h : pyLower a = pyLower b) :
    GeoCoder.location_distance d provider a b s = (.ok 0, s) := by
  simp [GeoCoder.location_distance, h]

/-- Witness for C7 at the case-variant pair `"Rome"`/`"ROME"` with a
sentinel entry already in the cache (still untouched). -/
theorem location_distance_same_name_witness :
    GeoCoder.location_distance (fun _ _ _ _ => 3) (fun _ => none) "Rome" "ROME"
        ⟨[("paris", none)], ["Paris"]⟩
      = (.ok 0, ⟨[("paris", none)], ["Paris"]⟩) :=
  location_distance_same_name (fun _ _ _ _ => 3) (fun _ => none) "Rome" "ROME"
    ⟨[("paris", none)], ["Paris"]⟩ (by decide)

/-- C8: on a cache miss, `GeoCoder._query` calls the provider once, stores
its result — even a `none` miss — under the case-folded name, and returns it;
any later query for any case variant of a cached name returns the cached
value with the state (cache and provider-call log) unchanged, so no further
provider call happens; and queries of other names never disturb a cached
entry. Hence at most one external lookup occurs per case-folded name. -/
theorem query_cache_behavior (provider : String → Option Location)
    (name : String) (s : GeoState)
    (hmiss : cacheLookup (pyLower name) s.cache = none) :
    GeoCoder.query provider name s
      = (provider name, ⟨(pyLower name, provider name) :: s.cache, s.log ++ [name]⟩)
    ∧ (∀ (name2 : String) (s2 : GeoState) (v : Option Location),
        pyLower name2 = pyLower name →
        cacheLookup (pyLower name) s2.cache = some v →
        GeoCoder.query provider name2 s2 = (v, s2))
    ∧ (∀ (other : String) (s2 : GeoState) (v : Option Location),
        cacheLookup (pyLower name) s2.cache = some v →
        cacheLookup (pyLower name) (GeoCoder.query provider other s2).2.cache = some v) := by
  refine ⟨?_, ?_, ?_⟩
  · simp [GeoCoder.query, hmiss]
  · intro name2 s2 v hvar hhit
    rw [GeoCoder.query, hvar, hhit]
  · intro other s2 v hhit
    rw [GeoCoder.query]
    rcases h : cacheLookup (pyLower other) s2.cache with _ | w
    · dsimp [cacheLookup]
      by_cases hk : pyLower other = pyLower name
      · rw [hk] at h
        rw [h] at hhit
        exact absurd hhit (by simp)
      · rw [if_neg hk]
        exact hhit
    · exact hhit

/-- Witness for C8 at the name `"Paris"` with a provider that finds nothing:
the miss sentinel `none` is cached and the case variant `"PARIS"` is then
answered from the cache without a provider call. -/
theorem query_cache_behavior_witness :
    GeoCoder.query (fun _ => none) "Paris" ⟨[], []⟩
      = (none, ⟨[("paris", none)], ["Paris"]⟩)
    ∧ GeoCoder.query (fun _ => none) "PARIS" ⟨[("paris", none)], ["Paris"]⟩
      = (none, ⟨[("paris", none)], ["Paris"]⟩) := by
  have h := query_cache_behavior (fun _ => none) "Paris" ⟨[], []⟩ (by decide)
  exact ⟨h.1, h.2.1 "PARIS" ⟨[("paris", none)], ["Paris"]⟩ none (by decide) (by decide)⟩

/-- C9: when the provider finds no match for a (not yet cached) name,
`location_coordinates` returns the explicit absent pair `(none, none)` rather
than raising; and `location_distance` on two case-distinct fresh names of
which at least one — either the first or the second — is unresolved hands the
absent coordinates to the geodesic computation, which raises a runtime fault
(`TypeError`), modelled as an error result. -/
theorem unresolved_location_propagation
    (d : Rat → Rat → Rat → Rat → Rat) (provider : String → Option Location)
    (a b : String) (s : GeoState)
    (hmissa : cacheLookup (pyLower a) s.cache = none)
    (hmissb : cacheLookup (pyLower b) s.cache = none)
    (hun : provider a = none ∨ provider b = none)
    (hab : pyLower a ≠ pyLower b) :
    (∀ n : String, provider n = none → cacheLookup (pyLower n) s.cache = none →
      (GeoCoder.location_coordinates provider n s).1 = (none, none))
    ∧ (GeoCoder.location_distance d provider a b s).1 = .error "TypeError" := by
  constructor
  · intro n hn hmn
    simp [GeoCoder.location_coordinates, GeoCoder.query, hmn, hn]
  · rw [GeoCoder.location_distance, if_neg hab]
    rcases hpa : provider a with _ | la
    · have hca : GeoCoder.location_coordinates provider a s
          = ((none, none), ⟨(pyLower a, none) :: s.cache, s.log ++ [a]⟩) := by
        simp [GeoCoder.location_coordinates, GeoCoder.query, hmissa, hpa]
      rw [hca]
      dsimp only
      rcases GeoCoder.location_coordinates provider b
          ⟨(pyLower a, none) :: s.cache, s.log ++ [a]⟩ with ⟨⟨c2a, c2b⟩, s2⟩
      rcases c2a with _ | x <;> rcases c2b with _ | y <;> rfl
    · rcases hpb : provider b with _ | lb
      · have hca : GeoCoder.location_coordinates provider a s
            = ((some la.latitude, some la.longitude),
                ⟨(pyLower a, some la) :: s.cache, s.log ++ [a]⟩) := by
          simp [GeoCoder.location_coordinates, GeoCoder.query, hmissa, hpa]
        have hmissb1 : cacheLookup (pyLower b)
            ((pyLower a, some la) :: s.cache) = none := by
          rw [cacheLookup, if_neg hab]
          exact hmissb
        have hcb : GeoCoder.location_coordinates provider b
            ⟨(pyLower a, some la) :: s.cache, s.log ++ [a]⟩
            = ((none, none),
                ⟨(pyLower b, none) :: (pyLower a, some la) :: s.cache,
                  (s.log ++ [a]) ++ [b]⟩) := by
          simp [GeoCoder.location_coordinates, GeoCoder.query, hmissb1, hpb]
        rw [hca]
        dsimp only
        rw [hcb]
        rfl
      · exfalso
        rcases hun with h | h
        · rw [hpa] at h
          exact Option.noConfusion h
        · rw [hpb] at h
          exact Option.noConfusion h

/-- Witness for C9, exercising the second-name-unresolved side of the
disjunction: `"Rome"` resolves but `"Atlantis"` does not, so `"Atlantis"`'s
coordinates are the absent pair and the distance from `"Rome"` to
`"Atlantis"` is a raised `TypeError`. -/
theorem unresolved_location_propagation_witness :
    (∀ n : String,
      (fun m => if m = "Atlantis" then none else some (⟨1, 2⟩ : Location)) n = none →
      cacheLookup (pyLower n) (⟨[], []⟩ : GeoState).cache = none →
      (GeoCoder.location_coordinates
        (fun m => if m = "Atlantis" then none else some ⟨1, 2⟩) n ⟨[], []⟩).1
        = (none, none))
    ∧ (GeoCoder.location_distance (fun _ _ _ _ => 3)
        (fun m => if m = "Atlantis" then none else some ⟨1, 2⟩) "Rome" "Atlantis" ⟨[], []⟩).1
      = .error "TypeError" :=
  unresolved_location_propagation (fun _ _ _ _ => 3)
    (fun m => if m = "Atlantis" then none else some ⟨1, 2⟩) "Rome" "Atlantis" ⟨[], []⟩
    (by decide) (by decide) (Or.inr (by decide)) (by decide)

/-! ## Helper lemmas for the permutation and cost claims -/

/-- Mapping `getD` over `range` of the length recovers the list. -/
theorem map_getD_range (l : List α) (dflt : α) :
    (List.range l.length).map (fun i => l.getD i dflt) = l := by
  induction l with
  | nil => simp
  | cons a t ih =>
    rw [List.length_cons, List.range_succ_eq_map, List.map_cons, List.map_map]
    simp only [List.getD_cons_zero, Function.comp_def, List.getD_cons_succ]
    rw [ih]

/-- A successful inner comprehension produces one entry per column index. -/
theorem buildEntries_ok_length (d : Rat → Rat → Rat → Rat → Rat)
    (provider : String → Option Location) (cities : List String) (i : Nat) :
    ∀ (js : List Nat) (s : GeoState) (vs : List Rat) (s2 : GeoState),
      TSPSolver.buildEntries d provider cities i js s = (.ok vs, s2) →
      vs.length = js.length := by
  intro js
  induction js with
  | nil =>
    intro s vs s2 h
    simp only [TSPSolver.buildEntries, Prod.mk.injEq, Except.ok.injEq] at h
    simp [← h.1]
  | cons j js ih =>
    intro s vs s2 h
    simp only [TSPSolver.buildEntries] at h
    split at h
    · exact absurd h (by simp)
    · rename_i v heq
      split at h
      · exact absurd h (by simp)
      · rename_i vs' s' heq'
        obtain ⟨h1, h2⟩ := Prod.mk.injEq .. ▸ h
        obtain ⟨rfl⟩ := Except.ok.injEq .. ▸ h1
        simpa using ih _ _ _ heq'

/-- A successful outer comprehension produces one row per row index. -/
theorem buildRows_ok_length (d : Rat → Rat → Rat → Rat → Rat)
    (provider : String → Option Location) (cities : List String) :
    ∀ (is : List Nat) (s : GeoState) (rows : List (List Rat)) (s2 : GeoState),
      TSPSolver.buildRows d provider cities is s = (.ok rows, s2) →
      rows.length = is.length := by
  intro is
  induction is with
  | nil =>
    intro s rows s2 h
    simp only [TSPSolver.buildRows, Prod.mk.injEq, Except.ok.injEq] at h
    simp [← h.1]
  | cons i is ih =>
    intro s rows s2 h
    simp only [TSPSolver.buildRows] at h
    split at h
    · exact absurd h (by simp)
    · rename_i row s1 heq
      split at h
      · exact absurd h (by simp)
      · rename_i rows' s' heq'
        obtain ⟨h1, h2⟩ := Prod.mk.injEq .. ▸ h
        obtain ⟨rfl⟩ := Except.ok.injEq .. ▸ h1
        simpa using ih _ _ _ heq'

/-- A successfully built matrix has one row per city. -/
theorem buildMatrix_ok_length (d : Rat → Rat → Rat → Rat → Rat)
    (provider : String → Option Location) (cities : List String)
    (s : GeoState) (m : List (List Rat)) (s2 : GeoState)
    (h : TSPSolver.buildMatrix d provider cities s = (.ok m, s2)) :
    m.length = cities.length := by
  have := buildRows_ok_length d provider cities (List.range cities.length) s m s2 h
  simpa using this

/-- Opening the problem (zeroing the start column) keeps the row count. -/
theorem zeroStartColumn_length (m : List (List Rat)) :
    (TSPSolver.zeroStartColumn m).length = m.length := by
  simp [TSPSolver.zeroStartColumn]

/-- Claim C1's core: the name list returned by `TSPSolver.solve` on a
non-degenerate input is a permutation of the input, provided the injected
solver returns a permutation of the row indices of the matrix it is given. -/
theorem solve_returns_permutation
    (solver_dp solver_sa : List (List Rat) → List Nat × Rat)
    (d : Rat → Rat → Rat → Rat → Rat) (provider : String → Option Location)
    (cities : List String) (open_problem : Bool)
    (st : List (List Rat)) (gs : GeoState)
    (out : List String) (dist : Rat) (m2 : List (List Rat)) (gs2 : GeoState)
    (h1 : 1 < cities.length)
    (hperm : ∀ mat : List (List Rat),
      (((if cities.length < 10 then solver_dp else solver_sa) mat).1).Perm
        (List.range mat.length))
    (hs : TSPSolver.solve solver_dp solver_sa d provider cities open_problem st gs
      = (.ok (out, dist), m2, gs2)) :
    out.Perm cities := by
  rw [TSPSolver.solve, if_pos h1, TSPSolver.solveCore] at hs
  rcases hb : TSPSolver.buildMatrix d provider cities gs with ⟨r, gs1⟩
  rw [hb] at hs
  cases r with
  | error e => exact absurd hs (by simp)
  | ok m =>
    simp only [Prod.mk.injEq, Except.ok.injEq] at hs
    obtain ⟨⟨hout, -⟩, hm, -⟩ := hs
    have hmlen : m.length = cities.length :=
      buildMatrix_ok_length d provider cities gs m gs1 hb
    have hdmlen :
        (if open_problem then TSPSolver.zeroStartColumn m else m).length
          = cities.length := by
      cases open_problem <;> simp [zeroStartColumn_length, hmlen]
    have hp := hperm (if open_problem then TSPSolver.zeroStartColumn m else m)
    rw [hdmlen] at hp
    have hmap := hp.map (fun index => cities.getD index "")
    rw [map_getD_range cities ""] at hmap
    exact hout ▸ hmap

/-- Folding for the cheapest tour keeps two invariants: the accumulator is a
permutation of the reference list and carries its own tour cost. -/
theorem foldl_min_spec (m : List (List Rat)) (r : List Nat) :
    ∀ (l : List (List Nat)) (init : List Nat × Rat),
      init.1.Perm r → init.2 = tourCost m init.1 →
      (∀ p ∈ l, p.Perm r) →
      ((l.foldl
          (fun acc p =>
            let cst := tourCost m p
            if cst < acc.2 then (p, cst) else acc) init).1.Perm r
      ∧ (l.foldl
          (fun acc p =>
            let cst := tourCost m p
            if cst < acc.2 then (p, cst) else acc) init).2
        = tourCost m (l.foldl
          (fun acc p =>
            let cst := tourCost m p
            if cst < acc.2 then (p, cst) else acc) init).1) := by
  intro l
  induction l with
  | nil => intro init h1 h2 _; exact ⟨h1, h2⟩
  | cons p l ih =>
    intro init h1 h2 hl
    rw [List.foldl_cons]
    by_cases hc : tourCost m p < init.2
    · refine ih (p, tourCost m p) (hl p (by simp)) rfl (fun q hq => hl q (by simp [hq])) ..
        |>.imp ?_ ?_ <;> · intro h; simpa [hc] using h
    · refine ih init h1 h2 (fun q hq => hl q (by simp [hq])) |>.imp ?_ ?_ <;>
        · intro h; simpa [hc] using h

/-- `bruteForceSolver` meets the `python_tsp` solver contract: it returns a
permutation of the matrix's row indices together with that permutation's
cyclic tour cost on the matrix it was given. -/
theorem bruteForce_spec (m : List (List Rat)) :
    ((bruteForceSolver m).1).Perm (List.range m.length)
    ∧ (bruteForceSolver m).2 = tourCost m (bruteForceSolver m).1 := by
  rw [bruteForceSolver]
  rcases hp : (List.range m.length).permutations' with _ | ⟨c, cs⟩
  · exact ⟨List.Perm.refl _, rfl⟩
  · have hc : c.Perm (List.range m.length) :=
      List.mem_permutations'.mp (by rw [hp]; simp)
    have hcs : ∀ p ∈ cs, p.Perm (List.range m.length) := fun p hps =>
      List.mem_permutations'.mp (by rw [hp]; simp [hps])
    exact foldl_min_spec m (List.range m.length) cs (c, tourCost m c) hc rfl hcs

/-- Witness for C1 at a concrete two-city input: the returned list is a
permutation (here, equal) of the input. -/
theorem solve_returns_permutation_witness :
    (["aa", "bb"] : List String).Perm ["aa", "bb"] :=
  solve_returns_permutation bruteForceSolver bruteForceSolver
    (fun _ _ _ _ => 5) (fun n => if n = "aa" then some ⟨0, 0⟩ else some ⟨1, 1⟩)
    ["aa", "bb"] false [[0, 0], [0, 0]] ⟨[], []⟩
    ["aa", "bb"] 10 [[0, 5], [5, 0]]
    ⟨[("bb", some ⟨1, 1⟩), ("aa", some ⟨0, 0⟩)], ["aa", "bb"]⟩
    (by decide)
    (fun mat => (bruteForce_spec mat).1)
    (by with_unfolding_all rfl)

/-- A concrete geodesic returning 5 km for every resolved pair; used with a
two-town provider in the open-problem counterexample. -/
def fiveKm : Rat → Rat → Rat → Rat → Rat := fun _ _ _ _ => 5

/-- A provider resolving `"aa"` and `"bb"` to two distinct coordinates. -/
def twoTownProvider : String → Option Location :=
  fun n => if n = "aa" then some ⟨0, 0⟩ else some ⟨1, 1⟩

/-- Counterexample to C2 as stated: on the open-problem input
`["aa", "bb"]` with all pairwise distances 5, `TSPSolver.solve` (with the
exact solver modelled by `bruteForceSolver`, which returns the cost of its
tour on the matrix it is given, as `python_tsp` does) reports distance 5 —
the cost of the tour `[0, 1]` on the column-zeroed working matrix — while the
closed-loop tour distance on the unmodified stored matrix `[[0,5],[5,0]]` is
10. The open-problem adjustment therefore changes the reported distance, not
only the tour selection. -/
theorem solve_open_distance_counterexample :
    TSPSolver.solve bruteForceSolver bruteForceSolver fiveKm twoTownProvider
        ["aa", "bb"] true [[0, 0], [0, 0]] ⟨[], []⟩
      = (.ok (["aa", "bb"], 5), [[0, 5], [5, 0]],
          ⟨[("bb", some ⟨1, 1⟩), ("aa", some ⟨0, 0⟩)], ["aa", "bb"]⟩)
    ∧ tourCost [[0, 5], [5, 0]] [0, 1] = 10
    ∧ (5 : Rat) ≠ 10 := by
  exact ⟨by with_unfolding_all rfl, by with_unfolding_all rfl, by norm_num⟩

/-- C2 amended: for an open-problem solve on more than one place, the
reported total distance is whatever the solver computes on the *modified*
working matrix (start column zeroed); with solvers meeting the `python_tsp`
contract this is the cyclic tour cost of the selected permutation on the
opened matrix, not the closed-loop cost on the unmodified one — the
open-problem adjustment affects the reported distance as well as the tour
selection. -/
theorem solve_open_reports_opened_cost
    (solver_dp solver_sa : List (List Rat) → List Nat × Rat)
    (d : Rat → Rat → Rat → Rat → Rat) (provider : String → Option Location)
    (cities : List String) (st : List (List Rat)) (gs : GeoState)
    (m : List (List Rat)) (gs1 : GeoState)
    (h1 : 1 < cities.length)
    (hb : TSPSolver.buildMatrix d provider cities gs = (.ok m, gs1))
    (hcost : ∀ mat : List (List Rat),
      ((if cities.length < 10 then solver_dp else solver_sa) mat).2
        = tourCost mat (((if cities.length < 10 then solver_dp else solver_sa) mat).1)) :
    (TSPSolver.solve solver_dp solver_sa d provider cities true st gs).1
      = .ok ((((if cities.length < 10 then solver_dp else solver_sa)
            (TSPSolver.zeroStartColumn m)).1).map (fun index => cities.getD index ""),
          tourCost (TSPSolver.zeroStartColumn m)
            (((if cities.length < 10 then solver_dp else solver_sa)
              (TSPSolver.zeroStartColumn m)).1)) := by
  rw [TSPSolver.solve, if_pos h1, TSPSolver.solveCore, hb]
  simp [hcost]

/-- Witness for the amended C2 at the concrete open-problem input
`["aa", "bb"]`. -/
theorem solve_open_reports_opened_cost_witness :
    (TSPSolver.solve bruteForceSolver bruteForceSolver fiveKm twoTownProvider
        ["aa", "bb"] true [[0, 0], [0, 0]] ⟨[], []⟩).1
      = .ok (((bruteForceSolver
            (TSPSolver.zeroStartColumn [[0, 5], [5, 0]])).1).map
              (fun index => (["aa", "bb"] : List String).getD index ""),
          tourCost (TSPSolver.zeroStartColumn [[0, 5], [5, 0]])
            ((bruteForceSolver (TSPSolver.zeroStartColumn [[0, 5], [5, 0]])).1)) :=
  solve_open_reports_opened_cost bruteForceSolver bruteForceSolver fiveKm
    twoTownProvider ["aa", "bb"] [[0, 0], [0, 0]] ⟨[], []⟩ [[0, 5], [5, 0]]
    ⟨[("bb", some ⟨1, 1⟩), ("aa", some ⟨0, 0⟩)], ["aa", "bb"]⟩
    (by decide) (by with_unfolding_all rfl)
    (fun mat => (bruteForce_spec mat).2)

/-- C6: on an open-problem solve of more than one place, only the working
copy handed to the solver has its start column zeroed; the matrix stored as
the `distance_matrix` artifact is the freshly built, unmodified closed
matrix. -/
theorem solve_open_keeps_closed_matrix
    (solver_dp solver_sa : List (List Rat) → List Nat × Rat)
    (d : Rat → Rat → Rat → Rat → Rat) (provider : String → Option Location)
    (cities : List String) (st : List (List Rat)) (gs : GeoState)
    (m : List (List Rat)) (gs1 : GeoState)
    (h1 : 1 < cities.length)
    (hb : TSPSolver.buildMatrix d provider cities gs = (.ok m, gs1)) :
    TSPSolver.solve solver_dp solver_sa d provider cities true st gs
      = (.ok ((((if cities.length < 10 then solver_dp else solver_sa)
            (TSPSolver.zeroStartColumn m)).1).map (fun index => cities.getD index ""),
          ((if cities.length < 10 then solver_dp else solver_sa)
            (TSPSolver.zeroStartColumn m)).2),
        m, gs1) := by
  rw [TSPSolver.solve, if_pos h1, TSPSolver.solveCore, hb]
  rfl

/-- Witness for C6: with `["aa", "bb"]` the stored matrix after an open solve
is the closed `[[0,5],[5,0]]`, while the solver consumed `[[0,5],[0,0]]`. -/
theorem solve_open_keeps_closed_matrix_witness :
    TSPSolver.solve bruteForceSolver bruteForceSolver fiveKm twoTownProvider
        ["aa", "bb"] true [[0, 0], [0, 0]] ⟨[], []⟩
      = (.ok (((bruteForceSolver
            (TSPSolver.zeroStartColumn [[0, 5], [5, 0]])).1).map
              (fun index => (["aa", "bb"] : List String).getD index ""),
          (bruteForceSolver (TSPSolver.zeroStartColumn [[0, 5], [5, 0]])).2),
        [[0, 5], [5, 0]],
        ⟨[("bb", some ⟨1, 1⟩), ("aa", some ⟨0, 0⟩)], ["aa", "bb"]⟩) :=
  solve_open_keeps_closed_matrix bruteForceSolver bruteForceSolver fiveKm
    twoTownProvider ["aa", "bb"] [[0, 0], [0, 0]] ⟨[], []⟩ [[0, 5], [5, 0]]
    ⟨[("bb", some ⟨1, 1⟩), ("aa", some ⟨0, 0⟩)], ["aa", "bb"]⟩
    (by decide) (by with_unfolding_all rfl)

/-! ## Cache-consistency lemmas leading to the matrix invariants (C5) -/

/-- With a case-insensitively deterministic provider and a consistent cache,
`_query` answers exactly the provider's result and keeps the cache
consistent. -/
theorem query_spec (provider : String → Option Location)
    (hprov : ∀ a b : String, pyLower a = pyLower b → provider a = provider b)
    (name : String) (s : GeoState) (hcc : CacheConsistent provider s) :
    (GeoCoder.query provider name s).1 = provider name
    ∧ CacheConsistent provider (GeoCoder.query provider name s).2 := by
  rw [GeoCoder.query]
  rcases h : cacheLookup (pyLower name) s.cache with _ | v
  · refine ⟨rfl, ?_⟩
    intro k v hk n hn
    dsimp at hk
    rw [cacheLookup] at hk
    by_cases hkey : pyLower name = k
    · rw [if_pos hkey] at hk
      obtain rfl : provider name = v := by simpa using hk
      exact hprov n name (hn.trans hkey.symm)
    · rw [if_neg hkey] at hk
      exact hcc k v hk n hn
  · exact ⟨(hcc _ _ h name rfl).symm ▸ rfl, hcc⟩

/-- Under the same hypotheses, `location_coordinates` is the pure coordinate
function and keeps the cache consistent. -/
theorem location_coordinates_spec (provider : String → Option Location)
    (hprov : ∀ a b : String, pyLower a = pyLower b → provider a = provider b)
    (name : String) (s : GeoState) (hcc : CacheConsistent provider s) :
    (GeoCoder.location_coordinates provider name s).1 = pureCoords provider name
    ∧ CacheConsistent provider (GeoCoder.location_coordinates provider name s).2 := by
  have h := query_spec provider hprov name s hcc
  rw [GeoCoder.location_coordinates, pureCoords]
  rcases hq : GeoCoder.query provider name s with ⟨r, s'⟩
  rw [hq] at h
  obtain ⟨h1, h2⟩ := h
  dsimp at h1 h2
  cases r <;> rw [← h1] <;> exact ⟨rfl, h2⟩

/-- Under the same hypotheses, `location_distance` is the pure distance
function and keeps the cache consistent. -/
theorem location_distance_spec (d : Rat → Rat → Rat → Rat → Rat)
    (provider : String → Option Location)
    (hprov : ∀ a b : String, pyLower a = pyLower b → provider a = provider b)
    (a b : String) (s : GeoState) (hcc : CacheConsistent provider s) :
    (GeoCoder.location_distance d provider a b s).1 = pureDistance d provider a b
    ∧ CacheConsistent provider (GeoCoder.location_distance d provider a b s).2 := by
  rw [GeoCoder.location_distance, pureDistance]
  by_cases hab : pyLower a = pyLower b
  · rw [if_pos hab, if_pos hab]
    exact ⟨rfl, hcc⟩
  · rw [if_neg hab, if_neg hab]
    have h1 := location_coordinates_spec provider hprov a s hcc
    rcases hq1 : GeoCoder.location_coordinates provider a s with ⟨c1, s1⟩
    rw [hq1] at h1
    obtain ⟨h1v, h1c⟩ := h1
    have h2 := location_coordinates_spec provider hprov b s1 h1c
    rcases hq2 : GeoCoder.location_coordinates provider b s1 with ⟨c2, s2⟩
    rw [hq2] at h2
    obtain ⟨h2v, h2c⟩ := h2
    dsimp only
    rw [hq2]
    dsimp at h1v h2v h2c ⊢
    rw [h1v, h2v]
    exact ⟨rfl, h2c⟩

/-- When both names resolve, the pure distance succeeds with value
`pureDistVal`. -/
theorem pureDistance_ok (d : Rat → Rat → Rat → Rat → Rat)
    (provider : String → Option Location) (a b : String)
    (ha : (provider a).isSome) (hb : (provider b).isSome) :
    pureDistance d provider a b = .ok (pureDistVal d provider a b) := by
  rw [pureDistance, pureDistVal]
  by_cases hab : pyLower a = pyLower b
  · rw [if_pos hab, if_pos hab]
  · rw [if_neg hab, if_neg hab]
    rcases hpa : provider a with _ | la
    · rw [hpa] at ha; exact absurd ha (by simp)
    · rcases hpb : provider b with _ | lb
      · rw [hpb] at hb; exact absurd hb (by simp)
      · rw [pureCoords, pureCoords, hpa, hpb]
        rfl

/-- The inner comprehension succeeds and produces the pure entry values when
every city resolves, keeping the cache consistent. -/
theorem buildEntries_spec (d : Rat → Rat → Rat → Rat → Rat)
    (provider : String → Option Location) (cities : List String)
    (hprov : ∀ a b : String, pyLower a = pyLower b → provider a = provider b)
    (hres : ∀ c ∈ cities, (provider c).isSome) (i : Nat) (hi : i < cities.length) :
    ∀ (js : List Nat), (∀ j ∈ js, j < cities.length) →
      ∀ (s : GeoState), CacheConsistent provider s →
      (TSPSolver.buildEntries d provider cities i js s).1
          = .ok (js.map (fun j => pureEntryVal d provider cities i j))
      ∧ CacheConsistent provider (TSPSolver.buildEntries d provider cities i js s).2 := by
  intro js
  induction js with
  | nil => intro _ s hcc; exact ⟨rfl, hcc⟩
  | cons j js ih =>
    intro hjs s hcc
    have hj : j < cities.length := hjs j (by simp)
    have hjs' : ∀ j' ∈ js, j' < cities.length := fun j' h => hjs j' (by simp [h])
    rw [TSPSolver.buildEntries]
    by_cases hij : i = j
    · rw [if_pos hij]
      dsimp only
      have := ih hjs' s hcc
      rcases hrec : TSPSolver.buildEntries d provider cities i js s with ⟨r, s2⟩
      rw [hrec] at this
      obtain ⟨h1, h2⟩ := this
      dsimp at h1 h2
      rw [h1]
      refine ⟨?_, h2⟩
      have he : pureEntryVal d provider cities i j = 0 := by
        rw [pureEntryVal, if_pos hij]
      dsimp only
      rw [List.map_cons, he]
    · rw [if_neg hij]
      dsimp only
      have hmem_i : cities.getD i "" ∈ cities := by
        rw [List.getD_eq_getElem cities "" hi]; exact List.getElem_mem hi
      have hmem_j : cities.getD j "" ∈ cities := by
        rw [List.getD_eq_getElem cities "" hj]; exact List.getElem_mem hj
      have hld := location_distance_spec d provider hprov
        (cities.getD i "") (cities.getD j "") s hcc
      rcases hldq : GeoCoder.location_distance d provider
          (cities.getD i "") (cities.getD j "") s with ⟨r1, s1⟩
      rw [hldq] at hld
      obtain ⟨hld1, hld2⟩ := hld
      dsimp at hld1 hld2
      rw [pureDistance_ok d provider _ _ (hres _ hmem_i) (hres _ hmem_j)] at hld1
      subst hld1
      dsimp only
      have := ih hjs' s1 hld2
      rcases hrec : TSPSolver.buildEntries d provider cities i js s1 with ⟨r, s2⟩
      rw [hrec] at this
      obtain ⟨h1, h2⟩ := this
      dsimp at h1 h2
      rw [h1]
      refine ⟨?_, h2⟩
      have he : pureEntryVal d provider cities i j
          = pureDistVal d provider (cities.getD i "") (cities.getD j "") := by
        rw [pureEntryVal, if_neg hij]
      dsimp only
      rw [List.map_cons, he]

/-- The outer comprehension succeeds row by row with the pure rows, keeping
the cache consistent. -/
theorem buildRows_spec (d : Rat → Rat → Rat → Rat → Rat)
    (provider : String → Option Location) (cities : List String)
    (hprov : ∀ a b : String, pyLower a = pyLower b → provider a = provider b)
    (hres : ∀ c ∈ cities, (provider c).isSome) :
    ∀ (is : List Nat), (∀ i ∈ is, i < cities.length) →
      ∀ (s : GeoState), CacheConsistent provider s →
      (TSPSolver.buildRows d provider cities is s).1
          = .ok (is.map (fun i =>
              (List.range cities.length).map (fun j => pureEntryVal d provider cities i j)))
      ∧ CacheConsistent provider (TSPSolver.buildRows d provider cities is s).2 := by
  intro is
  induction is with
  | nil => intro _ s hcc; exact ⟨rfl, hcc⟩
  | cons i is ih =>
    intro his s hcc
    have hi : i < cities.length := his i (by simp)
    have his' : ∀ i' ∈ is, i' < cities.length := fun i' h => his i' (by simp [h])
    rw [TSPSolver.buildRows]
    have hrow := buildEntries_spec d provider cities hprov hres i hi
      (List.range cities.length) (fun j hj => List.mem_range.mp hj) s hcc
    rcases hre : TSPSolver.buildEntries d provider cities i
        (List.range cities.length) s with ⟨r1, s1⟩
    rw [hre] at hrow
    obtain ⟨hrow1, hrow2⟩ := hrow
    dsimp at hrow1 hrow2
    subst hrow1
    dsimp only
    have := ih his' s1 hrow2
    rcases hrec : TSPSolver.buildRows d provider cities is s1 with ⟨r2, s2⟩
    rw [hrec] at this
    obtain ⟨h1, h2⟩ := this
    dsimp at h1 h2
    rw [h1]
    exact ⟨rfl, h2⟩

/-- The full matrix build succeeds with the pure matrix, keeping the cache
consistent. -/
theorem buildMatrix_spec (d : Rat → Rat → Rat → Rat → Rat)
    (provider : String → Option Location) (cities : List String)
    (hprov : ∀ a b : String, pyLower a = pyLower b → provider a = provider b)
    (hres : ∀ c ∈ cities, (provider c).isSome)
    (s : GeoState) (hcc : CacheConsistent provider s) :
    (TSPSolver.buildMatrix d provider cities s).1 = .ok (pureMatrix d provider cities)
    ∧ CacheConsistent provider (TSPSolver.buildMatrix d provider cities s).2 := by
  rw [TSPSolver.buildMatrix, pureMatrix]
  exact buildRows_spec d provider cities hprov hres (List.range cities.length)
    (fun i hi => List.mem_range.mp hi) s hcc

/-- Indexing a range-indexed matrix of values gives the generating function. -/
theorem entry_map_range (f : Nat → Nat → Rat) (n i j : Nat) (hi : i < n) (hj : j < n) :
    entry ((List.range n).map fun i => (List.range n).map fun j => f i j) i j = f i j := by
  simp [entry, List.getD_eq_getElem?_getD, List.getElem?_map, List.getElem?_range, hi, hj]

/-- Indexing the pure matrix gives the pure entry value. -/
theorem entry_pureMatrix (d : Rat → Rat → Rat → Rat → Rat)
    (provider : String → Option Location) (cities : List String) (i j : Nat)
    (hi : i < cities.length) (hj : j < cities.length) :
    entry (pureMatrix d provider cities) i j = pureEntryVal d provider cities i j := by
  rw [pureMatrix]
  exact entry_map_range (fun i j => pureEntryVal d provider cities i j)
    cities.length i j hi hj

/-- The pure pairwise distance is symmetric once the geodesic is. -/
theorem pureDistVal_symm (d : Rat → Rat → Rat → Rat → Rat)
    (provider : String → Option Location) (a b : String)
    (hdsym : ∀ x y z w, d x y z w = d z w x y) :
    pureDistVal d provider a b = pureDistVal d provider b a := by
  rw [pureDistVal, pureDistVal]
  by_cases hab : pyLower a = pyLower b
  · rw [if_pos hab, if_pos hab.symm]
  · rw [if_neg hab, if_neg (fun h => hab h.symm)]
    rcases hpa : provider a with _ | la <;> rcases hpb : provider b with _ | lb <;>
      first
      | rfl
      | exact hdsym la.latitude la.longitude lb.latitude lb.longitude

/-- The pure pairwise distance is non-negative once the geodesic is. -/
theorem pureDistVal_nonneg (d : Rat → Rat → Rat → Rat → Rat)
    (provider : String → Option Location) (a b : String)
    (hd0 : ∀ x y z w, 0 ≤ d x y z w) :
    0 ≤ pureDistVal d provider a b := by
  rw [pureDistVal]
  by_cases hab : pyLower a = pyLower b
  · rw [if_pos hab]
  · rw [if_neg hab]
    rcases provider a with _ | la <;> rcases provider b with _ | lb <;>
      first
      | exact le_refl 0
      | exact hd0 la.latitude la.longitude lb.latitude lb.longitude

/-- The pure entry function is symmetric in its indices. -/
theorem pureEntryVal_symm (d : Rat → Rat → Rat → Rat → Rat)
    (provider : String → Option Location) (cities : List String) (i j : Nat)
    (hdsym : ∀ x y z w, d x y z w = d z w x y) :
    pureEntryVal d provider cities i j = pureEntryVal d provider cities j i := by
  rw [pureEntryVal, pureEntryVal]
  by_cases hij : i = j
  · rw [if_pos hij, if_pos hij.symm]
  · rw [if_neg hij, if_neg (fun h => hij h.symm)]
    exact pureDistVal_symm d provider _ _ hdsym

/-- C5: for a non-degenerate input, the distance matrix built and stored by
`TSPSolver.solve` is an N×N square matrix with zero diagonal, symmetric
entries, and non-negative entries — given (as the claim grants) a geodesic
that is symmetric and non-negative and a provider that is deterministic per
case-folded name (so repeated lookups agree), with every place resolving and
a cache consistent with the provider. -/
theorem solve_matrix_invariants
    (solver_dp solver_sa : List (List Rat) → List Nat × Rat)
    (d : Rat → Rat → Rat → Rat → Rat) (provider : String → Option Location)
    (cities : List String) (open_problem : Bool)
    (st : List (List Rat)) (gs : GeoState)
    (h1 : 1 < cities.length)
    (hprov : ∀ a b : String, pyLower a = pyLower b → provider a = provider b)
    (hres : ∀ c ∈ cities, (provider c).isSome)
    (hdsym : ∀ x y z w, d x y z w = d z w x y)
    (hd0 : ∀ x y z w, 0 ≤ d x y z w)
    (hcc : CacheConsistent provider gs) :
    ((TSPSolver.solve solver_dp solver_sa d provider cities open_problem st gs).2.1).length
        = cities.length
    ∧ (∀ row ∈ (TSPSolver.solve solver_dp solver_sa d provider cities open_problem st gs).2.1,
        row.length = cities.length)
    ∧ (∀ i, i < cities.length →
        entry ((TSPSolver.solve solver_dp solver_sa d provider cities open_problem st gs).2.1) i i
          = 0)
    ∧ (∀ i j, i < cities.length → j < cities.length →
        entry ((TSPSolver.solve solver_dp solver_sa d provider cities open_problem st gs).2.1) i j
          = entry ((TSPSolver.solve solver_dp solver_sa d provider cities open_problem st gs).2.1) j i)
    ∧ (∀ i j, i < cities.length → j < cities.length →
        0 ≤ entry ((TSPSolver.solve solver_dp solver_sa d provider cities open_problem st gs).2.1) i j) := by
  have hM : (TSPSolver.solve solver_dp solver_sa d provider cities open_problem st gs).2.1
      = pureMatrix d provider cities := by
    rw [TSPSolver.solve, if_pos h1, TSPSolver.solveCore]
    have hb := buildMatrix_spec d provider cities hprov hres gs hcc
    rcases hbq : TSPSolver.buildMatrix d provider cities gs with ⟨r, gs1⟩
    rw [hbq] at hb
    obtain ⟨hb1, -⟩ := hb
    dsimp at hb1
    subst hb1
    rfl
  rw [hM]
  refine ⟨?_, ?_, ?_, ?_, ?_⟩
  · simp [pureMatrix]
  · intro row hrow
    rw [pureMatrix] at hrow
    simp only [List.mem_map, List.mem_range] at hrow
    obtain ⟨i, hi, rfl⟩ := hrow
    simp
  · intro i hi
    rw [entry_pureMatrix d provider cities i i hi hi, pureEntryVal, if_pos rfl]
  · intro i j hi hj
    rw [entry_pureMatrix d provider cities i j hi hj,
      entry_pureMatrix d provider cities j i hj hi]
    exact pureEntryVal_symm d provider cities i j hdsym
  · intro i j hi hj
    rw [entry_pureMatrix d provider cities i j hi hj]
    rw [pureEntryVal]
    by_cases hij : i = j
    · simp [hij]
    · rw [if_neg hij]
      exact pureDistVal_nonneg d provider _ _ hd0

/-- Witness for C5 at the concrete two-city input `["xx", "yy"]`, a constant
provider and the zero geodesic. -/
theorem solve_matrix_invariants_witness :
    ((TSPSolver.solve bruteForceSolver bruteForceSolver (fun _ _ _ _ => 0) constProvider
        ["xx", "yy"] false [[0, 0], [0, 0]] ⟨[], []⟩).2.1).length
        = (["xx", "yy"] : List String).length
    ∧ (∀ row ∈ (TSPSolver.solve bruteForceSolver bruteForceSolver (fun _ _ _ _ => 0) constProvider
        ["xx", "yy"] false [[0, 0], [0, 0]] ⟨[], []⟩).2.1,
        row.length = (["xx", "yy"] : List String).length)
    ∧ (∀ i, i < (["xx", "yy"] : List String).length →
        entry ((TSPSolver.solve bruteForceSolver bruteForceSolver (fun _ _ _ _ => 0) constProvider
          ["xx", "yy"] false [[0, 0], [0, 0]] ⟨[], []⟩).2.1) i i = 0)
    ∧ (∀ i j, i < (["xx", "yy"] : List String).length → j < (["xx", "yy"] : List String).length →
        entry ((TSPSolver.solve bruteForceSolver bruteForceSolver (fun _ _ _ _ => 0) constProvider
          ["xx", "yy"] false [[0, 0], [0, 0]] ⟨[], []⟩).2.1) i j
          = entry ((TSPSolver.solve bruteForceSolver bruteForceSolver (fun _ _ _ _ => 0) constProvider
          ["xx", "yy"] false [[0, 0], [0, 0]] ⟨[], []⟩).2.1) j i)
    ∧ (∀ i j, i < (["xx", "yy"] : List String).length → j < (["xx", "yy"] : List String).length →
        0 ≤ entry ((TSPSolver.solve bruteForceSolver bruteForceSolver (fun _ _ _ _ => 0) constProvider
          ["xx", "yy"] false [[0, 0], [0, 0]] ⟨[], []⟩).2.1) i j) :=
  solve_matrix_invariants bruteForceSolver bruteForceSolver (fun _ _ _ _ => 0) constProvider
    ["xx", "yy"] false [[0, 0], [0, 0]] ⟨[], []⟩
    (by decide)
    (fun _ _ _ => rfl)
    (fun _ _ => rfl)
    (fun _ _ _ _ => rfl)
    (fun _ _ _ _ => le_refl 0)
    (fun k v h => by simp [cacheLookup] at h)
